import Mathlib

/-!
Verification development for the IoT automated vehicle parking system
(Raspberry Pi vision / gate-coordination core).

The Python sources are shallowly embedded as pure Lean functions:

* `fee_calculator.py`   → `Parking.calculate_fee` (datetimes become rational
  second counts; Python float arithmetic is modelled exactly by `ℚ`);
* `camera_handler.py`   → `Parking.clean_number_plate_text`,
  `Parking.extract_number_plate` (strings become lists of code points, with
  the ASCII semantics of `str.upper` / `str.isalnum`), and
  `Parking.check_virtual_line_crossing` (contours become bounding-box
  records, crossing state becomes explicit last-crossing timestamps);
* `data_manager.py`     → `Parking.VFile` / `Parking.HFile` operations
  (the JSON files become explicit file states: readable content, a
  missing/corrupt file that `_read_json` turns into `{}`, or a file whose
  access raises an unexpected exception caught by each operation);
* `config_manager.py`   → `Parking.load_config` over an explicit
  configuration-file state;
* `main.py`             → `Parking.handleEntry` / `Parking.handleExit`,
  state-passing translations of the virtual-line callbacks, with serial
  commands, sleeps and scheduled timers reified as an output action list.
-/

namespace Parking

/-- Serial commands sent to the ESP32 (`serial_comm.py` convenience
functions). -/
inductive Cmd
  | OPEN_ENTRY_GATE
  | CLOSE_ENTRY_GATE
  | OPEN_EXIT_GATE
  | CLOSE_EXIT_GATE
  | BUZZER_ON
  | BUZZER_OFF
deriving DecidableEq

/-- Deferred actions scheduled with `threading.Timer` in `main.py`. -/
inductive TimerAction
  | closeEntry
  | closeExit
deriving DecidableEq

/-- Observable side effects of a gate handler, in program order: a serial
command, a `time.sleep`, or a scheduled timer. -/
inductive Act
  | cmd (c : Cmd)
  | sleep (seconds : ℚ)
  | timer (delay : ℚ) (action : TimerAction)
deriving DecidableEq

/-! ## Fee calculator (`fee_calculator.py`) -/

/-- Model of `FeeCalculator.calculate_fee`.  Timestamps are seconds as `ℚ` (a
`datetime` difference's `total_seconds()`); a missing timestamp is `none`.
The fee is `math.ceil(duration / 3600) * hourly_rate`, with `0.0` returned
and an error logged when a timestamp is missing or exit precedes entry. -/
def calculate_fee (entry_time exit_time : Option ℚ) (hourly_rate : ℚ) : ℚ :=
  match entry_time, exit_time with
  | some e, some x =>
    if x < e then 0
    else
      let hours : ℚ := (x - e) / 3600
      (⌈hours⌉ : ℚ) * hourly_rate
  | _, _ => 0

/-! ## Number-plate text cleaning (`camera_handler.py`) -/

/-- ASCII model of Python `str.islower` on one code point. -/
def pyIsLower (c : ℕ) : Bool := 97 ≤ c && c ≤ 122

/-- ASCII model of Python `str.upper` on one code point. -/
def pyToUpper (c : ℕ) : ℕ := if pyIsLower c then c - 32 else c

/-- ASCII model of Python `str.isalnum` on one code point. -/
def pyIsAlnum (c : ℕ) : Bool :=
  (65 ≤ c && c ≤ 90) || (97 ≤ c && c ≤ 122) || (48 ≤ c && c ≤ 57)

/-- Uppercase ASCII letter. -/
def pyIsUpper (c : ℕ) : Bool := 65 ≤ c && c ≤ 90

/-- ASCII digit. -/
def pyIsDigit (c : ℕ) : Bool := 48 ≤ c && c ≤ 57

/-- A number-plate / OCR string, as a list of code points. -/
abbrev PlateText := List ℕ

/-- Model of `CameraHandler._clean_number_plate_text`: keep the alphanumeric
characters of the uppercased text, then require length between 3 and 10,
returning the empty string otherwise. -/
def clean_number_plate_text (text : PlateText) : PlateText :=
  let cleaned := (text.map pyToUpper).filter pyIsAlnum
  if cleaned.length < 3 || 10 < cleaned.length then [] else cleaned

/-- Model of `CameraHandler.extract_number_plate`: the OCR engine is opaque, so its
outcome is the argument — `none` when the image is `None`, OCR raises, or
no text is produced; `some text` when OCR returns `text`.  The cleaned
text is returned when truthy (nonempty), otherwise `none`. -/
def extract_number_plate (ocr_text : Option PlateText) : Option PlateText :=
  match ocr_text with
  | none => none
  | some text =>
    let cleaned := clean_number_plate_text text
    if cleaned = [] then none else some cleaned

/-! ## Configuration manager (`config_manager.py`) -/

/-- A zone rectangle from the configuration. -/
structure ZoneRect where
  x1 : ℤ
  y1 : ℤ
  x2 : ℤ
  y2 : ℤ
deriving DecidableEq

/-- A parsed configuration dictionary; each key may be absent. -/
structure ConfigDict where
  entry_zone : Option ZoneRect
  exit_zone : Option ZoneRect
  entry_virtual_line_position : Option ℚ
  exit_virtual_line_position : Option ℚ
  motion_threshold : Option ℤ
  frame_width : Option ℤ
  frame_height : Option ℤ
deriving DecidableEq

/-- Model of `ConfigManager.DEFAULT_CONFIG`. -/
def DEFAULT_CONFIG : ConfigDict where
  entry_zone := some ⟨0, 0, 640, 480⟩
  exit_zone := some ⟨640, 0, 1280, 480⟩
  entry_virtual_line_position := some (1/2)
  exit_virtual_line_position := some (1/2)
  motion_threshold := some 500
  frame_width := some 1280
  frame_height := some 720

/-- State of `config.json` on disk: absent, present but not valid JSON
(or unreadable), or present and parsed to a dictionary. -/
inductive ConfigFile
  | absent
  | unparseable
  | parsed (d : ConfigDict)
deriving DecidableEq

/-- Model of `ConfigManager.load_config`: an absent file and a parse/read error both
fall back to `DEFAULT_CONFIG` with a logged warning; a file that parses is
returned as-is, with no validation of its keys. -/
def load_config : ConfigFile → ConfigDict
  | .absent => DEFAULT_CONFIG
  | .unparseable => DEFAULT_CONFIG
  | .parsed d => d

/-- The zone/line/threshold fields `CameraHandler.__init__` keeps. -/
structure CameraCfg where
  entry_zone : ZoneRect
  exit_zone : ZoneRect
  entry_virtual_line_position : ℚ
  exit_virtual_line_position : ℚ
  motion_threshold : ℤ
  frame_width : ℤ
  frame_height : ℤ
deriving DecidableEq

/-- Model of `CameraHandler.__init__` with `use_config=True`: `config["entry_zone"]`
and `config["exit_zone"]` are mandatory lookups (a missing key raises
`KeyError`, modelled as `none`); the remaining fields use `config.get`
with the shown defaults. -/
def cameraHandlerInit (file : ConfigFile) : Option CameraCfg :=
  let config := load_config file
  match config.entry_zone, config.exit_zone with
  | some ez, some xz =>
    some { entry_zone := ez
           exit_zone := xz
           entry_virtual_line_position :=
             config.entry_virtual_line_position.getD (1/2)
           exit_virtual_line_position :=
             config.exit_virtual_line_position.getD (1/2)
           motion_threshold := config.motion_threshold.getD 500
           frame_width := config.frame_width.getD 1280
           frame_height := config.frame_height.getD 720 }
  | _, _ => none

/-! ## Data manager (`data_manager.py`)

The active-vehicle JSON file is modelled by `VFile`: `good l` is a readable
file whose `"vehicles"` list is `l`; `bad` is a missing or JSON-invalid
file (`_read_json` catches the error and yields `{}`, so the vehicles list
reads as `[]`); `raising` is a file whose access raises an exception that
`_read_json` does not catch, so each operation's own `except` branch runs.
`_write_json` swallows write errors, so a write is modelled as succeeding. -/

/-- An active-vehicle record (`vehicles.json` entry). -/
structure VehicleRec where
  number_plate : PlateText
  entry_time : ℚ
  slot : ℕ
deriving DecidableEq

/-- A parking-history record (`history.json` entry). -/
structure HistoryRec where
  number_plate : PlateText
  entry_time : ℚ
  exit_time : ℚ
  fee : ℚ
  slot : ℕ
deriving DecidableEq

/-- State of the active-vehicles file. -/
inductive VFile
  | good (vehicles : List VehicleRec)
  | bad
  | raising
deriving DecidableEq

/-- State of the history file. -/
inductive HFile
  | good (history : List HistoryRec)
  | bad
  | raising
deriving DecidableEq

/-- The `"vehicles"` list `_read_json` + `data.get("vehicles", [])`
produce on a non-raising file. -/
def readVehicles : VFile → List VehicleRec
  | .good l => l
  | .bad => []
  | .raising => []

/-- The `"history"` list read from a non-raising history file. -/
def readHistory : HFile → List HistoryRec
  | .good l => l
  | .bad => []
  | .raising => []

/-- Model of `DataManager.add_vehicle_entry`: refuse a plate already present
(returning `False` with the file untouched), otherwise append the record
and report success; an unexpected exception returns `False`. -/
def add_vehicle_entry (f : VFile) (number_plate : PlateText)
    (entry_time : ℚ) (slot : ℕ) : Bool × VFile :=
  match f with
  | .raising => (false, f)
  | _ =>
    let vehicles := readVehicles f
    if vehicles.any (fun v => v.number_plate == number_plate) then
      (false, f)
    else
      (true, .good (vehicles ++ [⟨number_plate, entry_time, slot⟩]))

/-- Model of `DataManager.get_vehicle_entry`: first record with the plate, `none`
when absent or on an exception. -/
def get_vehicle_entry (f : VFile) (number_plate : PlateText) :
    Option VehicleRec :=
  match f with
  | .raising => none
  | _ => (readVehicles f).find? (fun v => v.number_plate == number_plate)

/-- Model of `DataManager.remove_vehicle_entry`: drop records with the plate and
report whether anything was removed; an exception returns `False`. -/
def remove_vehicle_entry (f : VFile) (number_plate : PlateText) :
    Bool × VFile :=
  match f with
  | .raising => (false, f)
  | _ =>
    let vehicles := readVehicles f
    let remaining := vehicles.filter (fun v => !(v.number_plate == number_plate))
    if remaining.length < vehicles.length then (true, .good remaining)
    else (false, f)

/-- Model of `DataManager.add_history_record`: append and report success; an
exception returns `False`. -/
def add_history_record (f : HFile) (number_plate : PlateText)
    (entry_time exit_time fee : ℚ) (slot : ℕ) : Bool × HFile :=
  match f with
  | .raising => (false, f)
  | _ => (true, .good (readHistory f ++ [⟨number_plate, entry_time, exit_time, fee, slot⟩]))

/-- Model of `DataManager.get_available_slots`: slot numbers `1..total_slots` not
occupied by an active record; the `except` branch returns the full
`list(range(1, total_slots + 1))`. -/
def get_available_slots (f : VFile) (total_slots : ℕ) : List ℕ :=
  match f with
  | .raising => List.range' 1 total_slots
  | _ =>
    let occupied := (readVehicles f).map (fun v => v.slot)
    (List.range' 1 total_slots).filter (fun i => !(occupied.contains i))

/-- Model of `DataManager.is_parking_full`. -/
def is_parking_full (f : VFile) (total_slots : ℕ) : Bool :=
  (get_available_slots f total_slots).length == 0

/-! ## Gate coordinator (`main.py`)

The `ParkingSystem` mutable fields touched by the virtual-line callbacks
become an explicit state record, and each callback becomes a pure function
from that state (plus the opaque OCR outcomes and the current time) to the
new state and the list of emitted actions.  The two OCR attempts —
`extract_number_plate(zone_image)` and the retry
`extract_number_plate_from_zone(frame, zone)` — look at different images,
so their outcomes are independent `Option` parameters. -/

/-- The `ParkingSystem` state shared between the callbacks. -/
structure SysState where
  entry_gate_processing : Bool
  exit_gate_processing : Bool
  slot_occupied : Bool
  vfile : VFile
  hfile : HFile
deriving DecidableEq

/-- The plate-resolution fragment shared by both handlers: use the first
OCR result when truthy; otherwise `time.sleep(0.5)` and use the retry's
result. -/
def resolve_number_plate (ocr1 ocr2 : Option PlateText) :
    Option PlateText × List Act :=
  match ocr1 with
  | some p => (some p, [])
  | none => (ocr2, [Act.sleep (1/2)])

/-- Body of `ParkingSystem._handle_entry_virtual_line` after the guarded
flag set: parking-full/buzzer check, plate resolution with one retry,
duplicate check, slot selection, persistence, then gate opening with a
scheduled close. -/
def processEntryCrossing (total_slots : ℕ) (s : SysState)
    (ocr1 ocr2 : Option PlateText) (now : ℚ) : SysState × List Act :=
  if is_parking_full s.vfile total_slots || s.slot_occupied then
    ({s with entry_gate_processing := false},
      [Act.cmd Cmd.BUZZER_ON, Act.sleep 3, Act.cmd Cmd.BUZZER_OFF])
  else
    match resolve_number_plate ocr1 ocr2 with
    | (none, acts) => ({s with entry_gate_processing := false}, acts)
    | (some number_plate, acts) =>
      match get_vehicle_entry s.vfile number_plate with
      | some _ => ({s with entry_gate_processing := false}, acts)
      | none =>
        match get_available_slots s.vfile total_slots with
        | [] => ({s with entry_gate_processing := false}, acts)
        | slot :: _ =>
          match add_vehicle_entry s.vfile number_plate now slot with
          | (true, vfile') =>
            ({s with vfile := vfile'},
              acts ++ [Act.cmd Cmd.OPEN_ENTRY_GATE,
                       Act.timer 5 TimerAction.closeEntry])
          | (false, vfile') =>
            ({s with entry_gate_processing := false, vfile := vfile'}, acts)

/-- Model of `ParkingSystem._handle_entry_virtual_line`: under the processing lock,
drop the event with a warning when the entry flag is already set,
otherwise set it and process. -/
def handleEntry (total_slots : ℕ) (s : SysState)
    (ocr1 ocr2 : Option PlateText) (now : ℚ) : SysState × List Act :=
  if s.entry_gate_processing then (s, [])
  else processEntryCrossing total_slots
    {s with entry_gate_processing := true} ocr1 ocr2 now

/-- Body of `ParkingSystem._handle_exit_virtual_line` after the guarded
flag set: plate resolution with one retry, active-record lookup, fee
computation, history append and record removal (results unchecked), then
gate opening with a scheduled close. -/
def processExitCrossing (s : SysState) (ocr1 ocr2 : Option PlateText)
    (now hourly_rate : ℚ) : SysState × List Act :=
  match resolve_number_plate ocr1 ocr2 with
  | (none, acts) => ({s with exit_gate_processing := false}, acts)
  | (some number_plate, acts) =>
    match get_vehicle_entry s.vfile number_plate with
    | none => ({s with exit_gate_processing := false}, acts)
    | some vehicle_entry =>
      let fee := calculate_fee (some vehicle_entry.entry_time) (some now) hourly_rate
      let hfile' := (add_history_record s.hfile number_plate
        vehicle_entry.entry_time now fee vehicle_entry.slot).2
      let vfile' := (remove_vehicle_entry s.vfile number_plate).2
      ({s with hfile := hfile', vfile := vfile'},
        acts ++ [Act.cmd Cmd.OPEN_EXIT_GATE, Act.timer 5 TimerAction.closeExit])

/-- Model of `ParkingSystem._handle_exit_virtual_line`: under the processing lock,
drop the event with a warning when the exit flag is already set, otherwise
set it and process. -/
def handleExit (s : SysState) (ocr1 ocr2 : Option PlateText)
    (now hourly_rate : ℚ) : SysState × List Act :=
  if s.exit_gate_processing then (s, [])
  else processExitCrossing {s with exit_gate_processing := true} ocr1 ocr2 now hourly_rate

/-! ## Crossing detector (`camera_handler.py`)

`_check_virtual_line_crossing` crops the foreground mask to the zone and
scans the external contours of the crop.  A contour is abstracted by what
the code reads off it: its `cv2.contourArea` (a float, modelled by `ℚ`)
and the `y`/`h` of its `cv2.boundingRect` in zone-relative pixel rows.
The zone-relative trigger row `virtual_line_y - y1` is an integer that may
be negative when the virtual line lies above the zone. -/

/-- A motion contour, as consumed by the crossing check. -/
structure Contour where
  area : ℚ
  top : ℕ
  height : ℕ
deriving DecidableEq

/-- From the loop body, `contour_bottom = y + h`. -/
def contour_bottom (c : Contour) : ℕ := c.top + c.height

/-- The per-contour test of the loop body: the contour survives the area
filter (`area < motion_threshold` skips it) and its vertical extent
straddles the zone-relative trigger row. -/
def contourTriggers (motion_threshold : ℚ) (zone_virtual_line_y : ℤ)
    (c : Contour) : Bool :=
  !(c.area < motion_threshold) &&
    ((c.top : ℤ) ≤ zone_virtual_line_y && zone_virtual_line_y ≤ (contour_bottom c : ℤ))

/-- Model of `CameraHandler._check_virtual_line_crossing` for one zone: return
unchanged during the cooldown; otherwise fire on the first contour (in the
contour-finder's enumeration order) passing `contourTriggers`, recording
`current_time` as the zone's new last-crossing time and invoking the
callback with that contour; with no such contour, leave the state alone.
The result is the zone's new last-crossing time and the fired contour. -/
def check_virtual_line_crossing (crossing_cooldown motion_threshold : ℚ)
    (zone_virtual_line_y : ℤ) (last_crossing_time current_time : ℚ)
    (contours : List Contour) : ℚ × Option Contour :=
  if current_time - last_crossing_time < crossing_cooldown then
    (last_crossing_time, none)
  else
    match contours.find? (contourTriggers motion_threshold zone_virtual_line_y) with
    | some c => (current_time, some c)
    | none => (last_crossing_time, none)

/-- One iteration of `_process_frames` for one zone: the frame-read time
and the contours found in the zone's mask crop. -/
structure DetectionAttempt where
  time : ℚ
  contours : List Contour

/-- The detection loop restricted to one zone: thread the last-crossing
time through successive `check_virtual_line_crossing` calls and collect
the times at which a crossing was declared (the callback invocations). -/
def run_zone_detection (crossing_cooldown motion_threshold : ℚ)
    (zone_virtual_line_y : ℤ) :
    ℚ → List DetectionAttempt → List ℚ
  | _, [] => []
  | last, a :: rest =>
    match check_virtual_line_crossing crossing_cooldown motion_threshold
        zone_virtual_line_y last a.time a.contours with
    | (last', some _) =>
      a.time :: run_zone_detection crossing_cooldown motion_threshold
        zone_virtual_line_y last' rest
    | (last', none) =>
      run_zone_detection crossing_cooldown motion_threshold
        zone_virtual_line_y last' rest

/-! ## Helper lemmas -/

/-- Splitting lemma for `List.find?`: a found element splits the list into
a prefix on which the predicate fails, the element, and a suffix. -/
theorem find?_eq_some_split {α : Type} (p : α → Bool) :
    ∀ (l : List α) (a : α), l.find? p = some a →
      ∃ l₁ l₂, l = l₁ ++ a :: l₂ ∧ ∀ x ∈ l₁, p x = false := by
  intro l
  induction l with
  | nil => intro a h; simp at h
  | cons b t ih =>
    intro a h
    by_cases hb : p b = true
    · rw [List.find?_cons_of_pos _ hb] at h
      cases h
      exact ⟨[], t, rfl, by simp⟩
    · rw [List.find?_cons_of_neg _ (by simpa using hb)] at h
      obtain ⟨l₁, l₂, rfl, hf⟩ := ih a h
      refine ⟨b :: l₁, l₂, rfl, ?_⟩
      intro x hx
      rcases List.mem_cons.mp hx with rfl | hx
      · simpa using hb
      · exact hf x hx

/-- A character kept by `clean_number_plate_text` — alphanumeric after
uppercasing — is an uppercase letter or a digit. -/
theorem pyToUpper_alnum_upper_or_digit (c : ℕ)
    (h : pyIsAlnum (pyToUpper c) = true) :
    (pyIsUpper (pyToUpper c) || pyIsDigit (pyToUpper c)) = true := by
  simp only [pyIsAlnum, pyToUpper, pyIsLower, pyIsUpper, pyIsDigit,
    Bool.or_eq_true, Bool.and_eq_true, decide_eq_true_eq] at h ⊢
  split_ifs at h ⊢ <;> omega

/-- A failed `add_vehicle_entry` leaves the vehicles file untouched. -/
theorem add_vehicle_entry_fail_unchanged (f : VFile) (p : PlateText)
    (t : ℚ) (slot : ℕ) (h : (add_vehicle_entry f p t slot).1 = false) :
    (add_vehicle_entry f p t slot).2 = f := by
  cases f <;> simp only [add_vehicle_entry] at h ⊢ <;> split_ifs at h ⊢ <;> simp_all

/-! ## Claims -/

/-- C2: `calculate_fee` returns `ceil(duration_seconds / 3600) * hourly_rate`
whenever exit is at or after entry — entry 10:00:00 (36000 s) with exit
10:00:01 bills one hour, with exit 11:00:00 exactly bills one hour, with
exit 11:00:01 bills two hours — returns `0.0` when exit is strictly before
entry or a timestamp is missing, and a zero duration yields fee `0`. -/
theorem calculate_fee_spec :
    (∀ e x rate : ℚ, e ≤ x →
      calculate_fee (some e) (some x) rate = (⌈(x - e) / 3600⌉ : ℚ) * rate)
  ∧ (∀ e x rate : ℚ, x < e → calculate_fee (some e) (some x) rate = 0)
  ∧ (∀ x rate : ℚ, calculate_fee none (some x) rate = 0)
  ∧ (∀ e rate : ℚ, calculate_fee (some e) none rate = 0)
  ∧ (∀ rate : ℚ, calculate_fee none none rate = 0)
  ∧ (∀ e rate : ℚ, calculate_fee (some e) (some e) rate = 0)
  ∧ (∀ rate : ℚ, calculate_fee (some 36000) (some 36001) rate = rate)
  ∧ (∀ rate : ℚ, calculate_fee (some 36000) (some 39600) rate = rate)
  ∧ (∀ rate : ℚ, calculate_fee (some 36000) (some 39601) rate = 2 * rate) := by
  have ceil1 : ⌈((1 : ℚ)) / 3600⌉ = 1 := by
    rw [Int.ceil_eq_iff]; norm_num
  have ceil2 : ⌈((3601 : ℚ)) / 3600⌉ = 2 := by
    rw [Int.ceil_eq_iff]; norm_num
  refine ⟨?_, ?_, ?_, ?_, ?_, ?_, ?_, ?_, ?_⟩
  · intro e x rate h
    simp [calculate_fee, not_lt.mpr h]
  · intro e x rate h
    simp [calculate_fee, h]
  · intro x rate; rfl
  · intro e rate; rfl
  · intro rate; rfl
  · intro e rate; simp [calculate_fee]
  · intro rate
    simp only [calculate_fee]
    norm_num
    rw [ceil1]
    norm_num
  · intro rate
    simp only [calculate_fee]
    norm_num
  · intro rate
    simp only [calculate_fee]
    norm_num
    exact Or.inl (by rw [ceil2]; norm_num)

/-- C2 witness: the calculation evaluated at concrete timestamps through
`calculate_fee_spec`. -/
theorem calculate_fee_spec_witness :
    calculate_fee (some 0) (some 7200) 10 = (⌈((7200 : ℚ) - 0) / 3600⌉ : ℚ) * 10
  ∧ calculate_fee (some 7200) (some 0) 10 = 0 :=
  ⟨calculate_fee_spec.1 0 7200 10 (by norm_num),
   calculate_fee_spec.2.1 7200 0 10 (by norm_num)⟩

/-- C9: `_clean_number_plate_text` returns the uppercased alphanumeric
filtering of its input exactly when that filtering has length 3–10,
otherwise the empty string; hence every plate `extract_number_plate`
returns consists solely of uppercase alphanumeric characters with length
between 3 and 10. -/
theorem plate_text_validation :
    (∀ text : PlateText,
      clean_number_plate_text text =
        if 3 ≤ ((text.map pyToUpper).filter pyIsAlnum).length ∧
            ((text.map pyToUpper).filter pyIsAlnum).length ≤ 10
        then (text.map pyToUpper).filter pyIsAlnum else [])
  ∧ (∀ (o : Option PlateText) (p : PlateText), extract_number_plate o = some p →
      (∀ c ∈ p, (pyIsUpper c || pyIsDigit c) = true) ∧
        3 ≤ p.length ∧ p.length ≤ 10) := by
  have hclean : ∀ text : PlateText,
      clean_number_plate_text text =
        if 3 ≤ ((text.map pyToUpper).filter pyIsAlnum).length ∧
            ((text.map pyToUpper).filter pyIsAlnum).length ≤ 10
        then (text.map pyToUpper).filter pyIsAlnum else [] := by
    intro text
    simp only [clean_number_plate_text]
    rcases Nat.lt_or_ge ((text.map pyToUpper).filter pyIsAlnum).length 3 with h | h
    · rw [if_pos (by simp; omega), if_neg (by omega)]
    · rcases Nat.lt_or_ge 10 ((text.map pyToUpper).filter pyIsAlnum).length with h' | h'
      · rw [if_pos (by simp; omega), if_neg (by omega)]
      · rw [if_neg (by simp; omega), if_pos (by omega)]
  refine ⟨hclean, ?_⟩
  intro o p hp
  cases o with
  | none => simp [extract_number_plate] at hp
  | some text =>
    simp only [extract_number_plate] at hp
    by_cases hemp : clean_number_plate_text text = []
    · rw [if_pos hemp] at hp
      exact absurd hp (by simp)
    · rw [if_neg hemp] at hp
      have hpc : clean_number_plate_text text = p := by injection hp
      rw [hclean text] at hpc hemp
      by_cases hlen : 3 ≤ ((text.map pyToUpper).filter pyIsAlnum).length ∧
          ((text.map pyToUpper).filter pyIsAlnum).length ≤ 10
      · rw [if_pos hlen] at hpc
        subst hpc
        refine ⟨?_, hlen⟩
        intro c hc
        have hmem := List.mem_filter.mp hc
        obtain ⟨c0, _, rfl⟩ := List.mem_map.mp hmem.1
        exact pyToUpper_alnum_upper_or_digit c0 hmem.2
      · rw [if_neg hlen] at hemp
        exact absurd rfl hemp

/-- C9 witness: `extract_number_plate` on raw OCR text "ab-1c" yields the
validated plate "AB1C" through `plate_text_validation`. -/
theorem plate_text_validation_witness :
    (∀ c ∈ [65, 66, 49, 67], (pyIsUpper c || pyIsDigit c) = true)
  ∧ 3 ≤ [65, 66, 49, 67].length ∧ [65, 66, 49, 67].length ≤ 10 :=
  plate_text_validation.2 (some [97, 98, 45, 49, 99]) [65, 66, 49, 67] (by decide)

/-- C8 counterexample: a configuration file whose content parses as JSON
but lacks every key — `load_config` returns it unchanged instead of the
defaults, and `CameraHandler` construction fails (`config["entry_zone"]`
raises `KeyError`), contradicting "never a startup failure". -/
theorem config_missing_keys_counterexample :
    load_config (ConfigFile.parsed ⟨none, none, none, none, none, none, none⟩) ≠ DEFAULT_CONFIG
  ∧ cameraHandlerInit (ConfigFile.parsed ⟨none, none, none, none, none, none, none⟩) = none := by
  constructor
  · intro h
    have h2 := congrArg ConfigDict.entry_zone h
    simp [load_config, DEFAULT_CONFIG] at h2
  · rfl

/-- C8 (amended): an absent or unparseable configuration file falls back
to the hard-coded defaults with a logged warning and `CameraHandler`
construction succeeds on those defaults; but a file that parses as JSON is
returned by `load_config` without validation, and `CameraHandler`
construction fails with a `KeyError` when the `entry_zone` or `exit_zone`
key is missing. -/
theorem config_fallback :
    load_config ConfigFile.absent = DEFAULT_CONFIG
  ∧ load_config ConfigFile.unparseable = DEFAULT_CONFIG
  ∧ cameraHandlerInit ConfigFile.absent =
      some ⟨⟨0, 0, 640, 480⟩, ⟨640, 0, 1280, 480⟩, 1/2, 1/2, 500, 1280, 720⟩
  ∧ cameraHandlerInit ConfigFile.unparseable =
      some ⟨⟨0, 0, 640, 480⟩, ⟨640, 0, 1280, 480⟩, 1/2, 1/2, 500, 1280, 720⟩
  ∧ (∀ d : ConfigDict, load_config (ConfigFile.parsed d) = d)
  ∧ (∀ d : ConfigDict, d.entry_zone = none ∨ d.exit_zone = none →
      cameraHandlerInit (ConfigFile.parsed d) = none) := by
  refine ⟨rfl, rfl, rfl, rfl, fun d => rfl, ?_⟩
  intro d h
  simp only [cameraHandlerInit, load_config]
  rcases h with h | h
  · rw [h]
  · rw [h]
    cases hez : d.entry_zone
    · rfl
    · rfl

/-- C8 witness: the missing-key failure instantiated through
`config_fallback`. -/
theorem config_fallback_witness :
    cameraHandlerInit (ConfigFile.parsed
      ⟨none, some ⟨640, 0, 1280, 480⟩, none, none, none, none, none⟩) = none :=
  config_fallback.2.2.2.2.2 _ (Or.inl rfl)

/-- C10 counterexample: with `total_slots = 0` and an unreadable vehicles
file, `get_available_slots` is empty and `is_parking_full` returns `True`,
not `False` as the claim states. -/
theorem read_failure_full_counterexample :
    get_available_slots VFile.bad 0 = [] ∧ is_parking_full VFile.bad 0 = true := by
  constructor <;> rfl

/-- C10 (amended): a read failure on the vehicles store — a missing or
JSON-invalid file that `_read_json` turns into `{}`, or an exception during
the query — makes `get_available_slots` return every slot from 1 to
`total_slots`, and makes `is_parking_full` return `False` provided
`total_slots ≥ 1`, so entry is not blocked by storage errors. -/
theorem read_failure_slots : ∀ total_slots : ℕ,
    get_available_slots VFile.bad total_slots = List.range' 1 total_slots
  ∧ get_available_slots VFile.raising total_slots = List.range' 1 total_slots
  ∧ (∀ i, i ∈ get_available_slots VFile.bad total_slots ↔
      1 ≤ i ∧ i < 1 + total_slots)
  ∧ (1 ≤ total_slots → is_parking_full VFile.bad total_slots = false)
  ∧ (1 ≤ total_slots → is_parking_full VFile.raising total_slots = false) := by
  intro n
  have hbad : get_available_slots VFile.bad n = List.range' 1 n := by
    simp [get_available_slots, readVehicles]
  have hraise : get_available_slots VFile.raising n = List.range' 1 n := rfl
  refine ⟨hbad, hraise, ?_, ?_, ?_⟩
  · intro i
    rw [hbad]
    exact List.mem_range'_1
  · intro h
    simp [is_parking_full, hbad]
    omega
  · intro h
    simp [is_parking_full, hraise]
    omega

/-- C10 witness: `read_failure_slots` at `total_slots = 1`. -/
theorem read_failure_slots_witness :
    is_parking_full VFile.bad 1 = false ∧ is_parking_full VFile.raising 1 = false :=
  ⟨(read_failure_slots 1).2.2.2.1 (by decide), (read_failure_slots 1).2.2.2.2 (by decide)⟩

/-- C1: a crossing event delivered while the zone's processing flag is
already true is dropped — the handler returns with the coordinator state
unchanged and no action emitted, independently of the OCR outcomes — and a
crossing event delivered while the flag is false sets the flag and runs
the zone's processing body. -/
theorem double_crossing_guard : ∀ (s : SysState) (total_slots : ℕ)
    (ocr1 ocr2 : Option PlateText) (now hourly_rate : ℚ),
    handleEntry total_slots {s with entry_gate_processing := true} ocr1 ocr2 now
      = ({s with entry_gate_processing := true}, [])
  ∧ handleExit {s with exit_gate_processing := true} ocr1 ocr2 now hourly_rate
      = ({s with exit_gate_processing := true}, [])
  ∧ handleEntry total_slots {s with entry_gate_processing := false} ocr1 ocr2 now
      = processEntryCrossing total_slots {s with entry_gate_processing := true}
          ocr1 ocr2 now
  ∧ handleExit {s with exit_gate_processing := false} ocr1 ocr2 now hourly_rate
      = processExitCrossing {s with exit_gate_processing := true}
          ocr1 ocr2 now hourly_rate := by
  intro s n o1 o2 t r
  cases s
  refine ⟨?_, ?_, ?_, ?_⟩ <;> simp [handleEntry, handleExit]

/-- C7: an entry crossing handled while the ledger reports full or the
hardware slot-occupied flag is set produces exactly the buzzer sequence —
`BUZZER_ON`, a 3-second sleep, `BUZZER_OFF` — clears the entry processing
flag and leaves every other part of the state unchanged: no plate read is
consulted, no record is added, and no gate-open command is sent. -/
theorem parking_full_buzzer : ∀ (s : SysState) (total_slots : ℕ)
    (ocr1 ocr2 : Option PlateText) (now : ℚ),
    s.entry_gate_processing = false →
    (is_parking_full s.vfile total_slots || s.slot_occupied) = true →
    handleEntry total_slots s ocr1 ocr2 now =
      (s, [Act.cmd Cmd.BUZZER_ON, Act.sleep 3, Act.cmd Cmd.BUZZER_OFF]) := by
  intro s n o1 o2 t h hfull
  cases s
  simp only at h
  subst h
  simp_all [handleEntry, processEntryCrossing]

/-- C7 witness: `parking_full_buzzer` at a state whose hardware occupancy
flag is set. -/
theorem parking_full_buzzer_witness :
    handleEntry 1 ⟨false, false, true, VFile.good [], HFile.good []⟩
        (some [65, 66, 67]) none 0 =
      (⟨false, false, true, VFile.good [], HFile.good []⟩,
        [Act.cmd Cmd.BUZZER_ON, Act.sleep 3, Act.cmd Cmd.BUZZER_OFF]) :=
  parking_full_buzzer ⟨false, false, true, VFile.good [], HFile.good []⟩ 1
    (some [65, 66, 67]) none 0 rfl rfl

/-- C6: a plate with an active record cannot enter again —
`add_vehicle_entry` on a store containing the plate returns `False` with
the store unchanged; an entry crossing resolving to such a plate leaves
the coordinator state unchanged apart from the cleared flag and sends no
`OPEN_ENTRY_GATE`; and `add_vehicle_entry` preserves distinctness of the
stored plates. -/
theorem duplicate_entry_denied : ∀ (l : List VehicleRec) (v : VehicleRec)
    (p : PlateText) (t : ℚ) (slot : ℕ) (s : SysState) (total_slots : ℕ)
    (ocr1 ocr2 : Option PlateText) (now : ℚ) (f : VFile),
    (v ∈ l → v.number_plate = p →
      add_vehicle_entry (VFile.good l) p t slot = (false, VFile.good l))
  ∧ (s.entry_gate_processing = false →
      (resolve_number_plate ocr1 ocr2).1 = some p →
      (get_vehicle_entry s.vfile p).isSome = true →
      (handleEntry total_slots s ocr1 ocr2 now).1
          = {s with entry_gate_processing := false}
        ∧ Act.cmd Cmd.OPEN_ENTRY_GATE ∉ (handleEntry total_slots s ocr1 ocr2 now).2)
  ∧ (((readVehicles f).map (fun v => v.number_plate)).Nodup →
      ((readVehicles (add_vehicle_entry f p t slot).2).map
        (fun v => v.number_plate)).Nodup) := by
  intro l v p t slot s n o1 o2 now f
  refine ⟨?_, ?_, ?_⟩
  · intro hv hvp
    have hany : l.any (fun w => w.number_plate == p) = true :=
      List.any_eq_true.mpr ⟨v, hv, by simp [hvp]⟩
    simp [add_vehicle_entry, readVehicles, hany]
  · intro hflag hres hsome
    obtain ⟨r, hr⟩ := Option.isSome_iff_exists.mp hsome
    obtain ⟨e1, e2, occ, vf, hf⟩ := s
    simp only at hflag
    subst hflag
    by_cases hfull : (is_parking_full vf n || occ) = true
    · simp [handleEntry, processEntryCrossing, hfull]
    · cases o1 with
      | some q =>
        have hq : q = p := by simpa [resolve_number_plate] using hres
        subst hq
        simp [handleEntry, processEntryCrossing, hfull, hr,
          resolve_number_plate]
      | none =>
        have hq : o2 = some p := by simpa [resolve_number_plate] using hres
        subst hq
        simp [handleEntry, processEntryCrossing, hfull, hr,
          resolve_number_plate]
  · intro hnd
    cases f with
    | raising => simpa [add_vehicle_entry] using hnd
    | good l' =>
      by_cases hany : l'.any (fun w => w.number_plate == p) = true
      · simpa [add_vehicle_entry, readVehicles, hany] using hnd
      · have hnotin : ∀ w ∈ l', ¬ w.number_plate = p := by
          intro w hw hwp
          exact hany (List.any_eq_true.mpr ⟨w, hw, by simp [hwp]⟩)
        have hredux : (add_vehicle_entry (VFile.good l') p t slot).2
            = VFile.good (l' ++ [⟨p, t, slot⟩]) := by
          simp [add_vehicle_entry, readVehicles, hany]
        rw [hredux]
        simp only [readVehicles]
        rw [List.map_append, List.nodup_append]
        refine ⟨by simpa [readVehicles] using hnd, by simp, ?_⟩
        intro x hx hmem
        obtain ⟨w, hw, rfl⟩ := List.mem_map.mp hx
        simp only [List.map_cons, List.map_nil, List.mem_singleton] at hmem
        exact hnotin w hw hmem
    | bad => simp [add_vehicle_entry, readVehicles]

/-- C6 witness: `duplicate_entry_denied` at a one-vehicle store and a
matching second entry attempt. -/
theorem duplicate_entry_denied_witness :
    add_vehicle_entry (VFile.good [⟨[65, 66, 67], 0, 1⟩]) [65, 66, 67] 5 1
      = (false, VFile.good [⟨[65, 66, 67], 0, 1⟩])
  ∧ (handleEntry 1 ⟨false, false, false, VFile.good [⟨[65, 66, 67], 0, 1⟩], HFile.good []⟩
        (some [65, 66, 67]) none 5).1
      = ⟨false, false, false, VFile.good [⟨[65, 66, 67], 0, 1⟩], HFile.good []⟩ := by
  have h := duplicate_entry_denied [⟨[65, 66, 67], 0, 1⟩] ⟨[65, 66, 67], 0, 1⟩
    [65, 66, 67] 5 1
    ⟨false, false, false, VFile.good [⟨[65, 66, 67], 0, 1⟩], HFile.good []⟩ 1
    (some [65, 66, 67]) none 5 (VFile.good [])
  exact ⟨h.1 (by simp) rfl, (h.2.1 rfl rfl (by decide)).1⟩

/-- C5 counterexample: an exit crossing whose history append fails (the
history file raises, so `add_history_record` returns `False`) still emits
`OPEN_EXIT_GATE` — the exit handler never checks the persistence results. -/
theorem exit_persistence_counterexample :
    (add_history_record HFile.raising [65, 66, 67] 0 10 10 1).1 = false
  ∧ Act.cmd Cmd.OPEN_EXIT_GATE ∈
      (handleExit ⟨false, false, false, VFile.good [⟨[65, 66, 67], 0, 1⟩], HFile.raising⟩
        (some [65, 66, 67]) none 10 10).2 := by
  refine ⟨rfl, ?_⟩
  simp [handleExit, processExitCrossing, get_vehicle_entry, readVehicles,
    resolve_number_plate, List.find?]

/-- C5 (amended): on entry, a failed `add_vehicle_entry` aborts before any
actuator command — `OPEN_ENTRY_GATE` is not sent and the processing flag
is cleared; on exit, however, the results of `add_history_record` and
`remove_vehicle_entry` are ignored and `OPEN_EXIT_GATE` is sent regardless
of whether they fail. -/
theorem persistence_gate_abort : ∀ (s : SysState) (total_slots : ℕ)
    (ocr1 ocr2 : Option PlateText) (now hourly_rate : ℚ) (p : PlateText)
    (slot : ℕ) (rest : List ℕ) (r : VehicleRec),
    (s.entry_gate_processing = false →
      (is_parking_full s.vfile total_slots || s.slot_occupied) = false →
      (resolve_number_plate ocr1 ocr2).1 = some p →
      get_vehicle_entry s.vfile p = none →
      get_available_slots s.vfile total_slots = slot :: rest →
      (add_vehicle_entry s.vfile p now slot).1 = false →
      handleEntry total_slots s ocr1 ocr2 now
          = ({s with entry_gate_processing := false},
             (resolve_number_plate ocr1 ocr2).2)
        ∧ Act.cmd Cmd.OPEN_ENTRY_GATE ∉ (handleEntry total_slots s ocr1 ocr2 now).2)
  ∧ (s.exit_gate_processing = false →
      (resolve_number_plate ocr1 ocr2).1 = some p →
      get_vehicle_entry s.vfile p = some r →
      (handleExit s ocr1 ocr2 now hourly_rate).2
        = (resolve_number_plate ocr1 ocr2).2 ++
            [Act.cmd Cmd.OPEN_EXIT_GATE, Act.timer 5 TimerAction.closeExit]) := by
  intro s n o1 o2 now rate p slot rest r
  constructor
  · intro hflag hfull hres hdup hslots hadd
    have hunch := add_vehicle_entry_fail_unchanged s.vfile p now slot
    obtain ⟨e1, e2, occ, vf, hf⟩ := s
    simp only at hflag hfull hres hdup hslots hadd hunch ⊢
    subst hflag
    have hadd2 : add_vehicle_entry vf p now slot = (false, vf) := by
      have := hunch hadd
      rw [Prod.ext_iff]
      exact ⟨hadd, this⟩
    cases o1 with
    | some q =>
      have hq : q = p := by simpa [resolve_number_plate] using hres
      subst hq
      refine ⟨?_, ?_⟩ <;>
        simp [handleEntry, processEntryCrossing, hfull, hdup, hslots, hadd2,
          resolve_number_plate]
    | none =>
      have hq : o2 = some p := by simpa [resolve_number_plate] using hres
      subst hq
      refine ⟨?_, ?_⟩ <;>
        simp [handleEntry, processEntryCrossing, hfull, hdup, hslots, hadd2,
          resolve_number_plate]
  · intro hflag hres hr
    obtain ⟨e1, e2, occ, vf, hf⟩ := s
    simp only at hflag hres hr ⊢
    subst hflag
    cases o1 with
    | some q =>
      have hq : q = p := by simpa [resolve_number_plate] using hres
      subst hq
      simp [handleExit, processExitCrossing, hr, resolve_number_plate]
    | none =>
      have hq : o2 = some p := by simpa [resolve_number_plate] using hres
      subst hq
      simp [handleExit, processExitCrossing, hr, resolve_number_plate]

/-- C5 witness: `persistence_gate_abort` at a raising vehicles file for
the entry half and a raising history file for the exit half. -/
theorem persistence_gate_abort_witness :
    handleEntry 1 ⟨false, false, false, VFile.raising, HFile.good []⟩
        (some [65, 66, 67]) none 0
      = (⟨false, false, false, VFile.raising, HFile.good []⟩, [])
  ∧ (handleExit ⟨false, false, false, VFile.good [⟨[66, 67, 68], 0, 2⟩], HFile.raising⟩
        (some [66, 67, 68]) none 20 10).2
      = [Act.cmd Cmd.OPEN_EXIT_GATE, Act.timer 5 TimerAction.closeExit] := by
  constructor
  · exact ((persistence_gate_abort
      ⟨false, false, false, VFile.raising, HFile.good []⟩ 1
      (some [65, 66, 67]) none 0 10 [65, 66, 67] 1 [] ⟨[], 0, 0⟩).1
      rfl rfl rfl rfl rfl rfl).1
  · exact (persistence_gate_abort
      ⟨false, false, false, VFile.good [⟨[66, 67, 68], 0, 2⟩], HFile.raising⟩ 1
      (some [66, 67, 68]) none 20 10 [66, 67, 68] 1 [] ⟨[66, 67, 68], 0, 2⟩).2
      rfl rfl (by decide)

/-- The per-contour loop test, in propositional form. -/
theorem contourTriggers_iff (mt : ℚ) (line : ℤ) (c : Contour) :
    contourTriggers mt line c = true ↔
      mt ≤ c.area ∧ (c.top : ℤ) ≤ line ∧ line ≤ (contour_bottom c : ℤ) := by
  simp [contourTriggers, not_lt]

/-- Outcomes of a crossing check: either nothing fires and the
last-crossing time is kept, or the cooldown had elapsed, a contour fired,
and the last-crossing time becomes the current time. -/
theorem check_result_cases (cd mt : ℚ) (line : ℤ) (last now : ℚ)
    (cs : List Contour) :
    check_virtual_line_crossing cd mt line last now cs = (last, none)
  ∨ ((check_virtual_line_crossing cd mt line last now cs).1 = now
      ∧ cd ≤ now - last
      ∧ (check_virtual_line_crossing cd mt line last now cs).2.isSome = true) := by
  unfold check_virtual_line_crossing
  by_cases h : now - last < cd
  · left; rw [if_pos h]
  · rw [if_neg h]
    cases hfind : cs.find? (contourTriggers mt line) with
    | none => left; rfl
    | some c => right; exact ⟨rfl, not_lt.mp h, rfl⟩

/-- Every declaration in a detection trace lies at least one cooldown
after the initial last-crossing time. -/
theorem run_zone_detection_lower_bound (cd mt : ℚ) (line : ℤ) (hcd : 0 ≤ cd) :
    ∀ (attempts : List DetectionAttempt) (last d : ℚ),
      d ∈ run_zone_detection cd mt line last attempts → last + cd ≤ d := by
  intro attempts
  induction attempts with
  | nil => intro last d hd; simp [run_zone_detection] at hd
  | cons a rest ih =>
    intro last d hd
    rcases check_result_cases cd mt line last a.time a.contours with hnone | ⟨h1, h2, h3⟩
    · rw [run_zone_detection, hnone] at hd
      exact ih last d hd
    · obtain ⟨c, hc⟩ := Option.isSome_iff_exists.mp h3
      have hpair : check_virtual_line_crossing cd mt line last a.time a.contours
          = (a.time, some c) := by
        rw [Prod.ext_iff]; exact ⟨h1, hc⟩
      rw [run_zone_detection, hpair] at hd
      rcases List.mem_cons.mp hd with rfl | hd
      · linarith
      · have := ih a.time d hd
        have hle : last ≤ a.time := by linarith
        linarith

/-- Consecutive declarations in a detection trace are at least one
cooldown apart. -/
theorem run_zone_detection_chain (cd mt : ℚ) (line : ℤ) (hcd : 0 ≤ cd) :
    ∀ (attempts : List DetectionAttempt) (last : ℚ),
      (run_zone_detection cd mt line last attempts).Chain'
        (fun x y => x + cd ≤ y) := by
  intro attempts
  induction attempts with
  | nil => intro last; simp [run_zone_detection]
  | cons a rest ih =>
    intro last
    rcases check_result_cases cd mt line last a.time a.contours with hnone | ⟨h1, h2, h3⟩
    · rw [run_zone_detection, hnone]
      exact ih last
    · obtain ⟨c, hc⟩ := Option.isSome_iff_exists.mp h3
      have hpair : check_virtual_line_crossing cd mt line last a.time a.contours
          = (a.time, some c) := by
        rw [Prod.ext_iff]; exact ⟨h1, hc⟩
      rw [run_zone_detection, hpair, List.chain'_cons']
      refine ⟨?_, ih a.time⟩
      intro y hy
      exact run_zone_detection_lower_bound cd mt line hcd rest a.time y
        (List.mem_of_mem_head? hy)

/-- A list whose consecutive elements are a cooldown apart has at most one
element inside any half-open window of the cooldown's length. -/
theorem pairwise_window_length (cd : ℚ) (l : List ℚ)
    (hp : l.Pairwise (fun x y => x + cd ≤ y)) (w : ℚ) :
    (l.filter (fun d => decide (w ≤ d) && decide (d < w + cd))).length ≤ 1 := by
  have hpf := List.Pairwise.filter
    (fun d => decide (w ≤ d) && decide (d < w + cd)) hp
  rcases hfl : l.filter (fun d => decide (w ≤ d) && decide (d < w + cd)) with
    _ | ⟨x, _ | ⟨y, t2⟩⟩
  · simp
  · simp
  · exfalso
    rw [hfl] at hpf
    have hxy : x + cd ≤ y := (List.pairwise_cons.mp hpf).1 y (by simp)
    have hx := List.of_mem_filter (l := l)
      (a := x) (by rw [hfl]; exact List.mem_cons_self x (y :: t2))
    have hy := List.of_mem_filter (l := l)
      (a := y) (by rw [hfl]; simp)
    simp only [Bool.and_eq_true, decide_eq_true_eq] at hx hy
    linarith [hx.1, hy.2]

/-- C3: once the cooldown has elapsed, a crossing fires exactly when some
contour of the zone crop has area at least `motion_threshold` and a
vertical extent straddling the zone-relative trigger row; the fired
contour is the first such contour in the enumeration order (every earlier
contour fails the test), so a contour that is too small or does not
straddle the row never fires. -/
theorem crossing_check_spec : ∀ (crossing_cooldown motion_threshold : ℚ)
    (zone_virtual_line_y : ℤ) (last now : ℚ) (contours : List Contour),
    crossing_cooldown ≤ now - last →
    ((check_virtual_line_crossing crossing_cooldown motion_threshold
        zone_virtual_line_y last now contours).2.isSome = true ↔
      ∃ c ∈ contours, motion_threshold ≤ c.area ∧
        (c.top : ℤ) ≤ zone_virtual_line_y ∧
        zone_virtual_line_y ≤ (contour_bottom c : ℤ))
  ∧ (∀ c, (check_virtual_line_crossing crossing_cooldown motion_threshold
        zone_virtual_line_y last now contours).2 = some c →
      (motion_threshold ≤ c.area ∧ (c.top : ℤ) ≤ zone_virtual_line_y ∧
          zone_virtual_line_y ≤ (contour_bottom c : ℤ))
        ∧ ∃ l₁ l₂, contours = l₁ ++ c :: l₂ ∧
            ∀ c' ∈ l₁,
              contourTriggers motion_threshold zone_virtual_line_y c' = false) := by
  intro cd mt line last now cs h
  have hcool : ¬ (now - last < cd) := not_lt.mpr h
  constructor
  · cases hfind : cs.find? (contourTriggers mt line) with
    | none =>
      unfold check_virtual_line_crossing
      rw [if_neg hcool, hfind]
      simp only [Option.isSome_none, Bool.false_eq_true, false_iff, not_exists]
      intro c
      rintro ⟨hc, hprop⟩
      exact List.find?_eq_none.mp hfind c hc
        ((contourTriggers_iff mt line c).mpr hprop)
    | some c0 =>
      unfold check_virtual_line_crossing
      rw [if_neg hcool, hfind]
      simp only [Option.isSome_some, true_iff]
      exact ⟨c0, List.mem_of_find?_eq_some hfind,
        (contourTriggers_iff mt line c0).mp (List.find?_some hfind)⟩
  · intro c hc
    unfold check_virtual_line_crossing at hc
    rw [if_neg hcool] at hc
    cases hfind : cs.find? (contourTriggers mt line) with
    | none => rw [hfind] at hc; simp at hc
    | some c0 =>
      rw [hfind] at hc
      simp only [Option.some.injEq] at hc
      subst hc
      exact ⟨(contourTriggers_iff mt line c0).mp (List.find?_some hfind),
        find?_eq_some_split _ cs c0 hfind⟩

/-- C3 witness: `crossing_check_spec` with the cooldown elapsed and a
single qualifying contour. -/
theorem crossing_check_spec_witness :
    (check_virtual_line_crossing 3 500 10 0 5 [⟨600, 5, 10⟩]).2.isSome = true :=
  (crossing_check_spec 3 500 10 0 5 [⟨600, 5, 10⟩] (by norm_num)).1.mpr
    ⟨⟨600, 5, 10⟩, by simp, by norm_num, by norm_num [contour_bottom],
      by norm_num [contour_bottom]⟩

/-- C4: a detection attempt made less than a cooldown after the zone's
last declaration returns without declaring or firing the callback;
declaring records the declaration time as the zone's cooldown timestamp;
and in any detection trace the declaration times are pairwise at least one
cooldown apart, so at most one callback fires per zone within any window
of the cooldown's length. -/
theorem crossing_cooldown_spec : ∀ (crossing_cooldown motion_threshold : ℚ)
    (zone_virtual_line_y : ℤ) (last now start : ℚ) (contours : List Contour)
    (attempts : List DetectionAttempt),
    (now - last < crossing_cooldown →
      check_virtual_line_crossing crossing_cooldown motion_threshold
        zone_virtual_line_y last now contours = (last, none))
  ∧ (∀ c, (check_virtual_line_crossing crossing_cooldown motion_threshold
        zone_virtual_line_y last now contours).2 = some c →
      (check_virtual_line_crossing crossing_cooldown motion_threshold
        zone_virtual_line_y last now contours).1 = now)
  ∧ (0 ≤ crossing_cooldown →
      (run_zone_detection crossing_cooldown motion_threshold
        zone_virtual_line_y start attempts).Pairwise
        (fun x y => x + crossing_cooldown ≤ y))
  ∧ (0 ≤ crossing_cooldown → ∀ w : ℚ,
      ((run_zone_detection crossing_cooldown motion_threshold
          zone_virtual_line_y start attempts).filter
        (fun d => decide (w ≤ d) && decide (d < w + crossing_cooldown))).length
        ≤ 1) := by
  intro cd mt line last now start cs attempts
  have hpair : 0 ≤ cd →
      (run_zone_detection cd mt line start attempts).Pairwise
        (fun x y => x + cd ≤ y) := by
    intro hcd
    letI : IsTrans ℚ (fun x y => x + cd ≤ y) :=
      ⟨fun a b c hab hbc =>
        le_trans hab (le_trans (le_add_of_nonneg_right hcd) hbc)⟩
    exact List.chain'_iff_pairwise.mp
      (run_zone_detection_chain cd mt line hcd attempts start)
  refine ⟨?_, ?_, hpair, ?_⟩
  · intro h
    unfold check_virtual_line_crossing
    rw [if_pos h]
  · intro c hc
    rcases check_result_cases cd mt line last now cs with hnone | ⟨h1, _, _⟩
    · rw [hnone] at hc; simp at hc
    · exact h1
  · intro hcd w
    exact pairwise_window_length cd _ (hpair hcd) w

/-- C4 witness: `crossing_cooldown_spec` applied to a suppressed attempt
one second after a declaration, and to a three-frame trace with a
persistent qualifying blob. -/
theorem crossing_cooldown_spec_witness :
    check_virtual_line_crossing 3 500 10 4 5 [⟨600, 5, 10⟩] = (4, none)
  ∧ ((run_zone_detection 3 500 10 0
        [⟨5, [⟨600, 5, 10⟩]⟩, ⟨6, [⟨600, 5, 10⟩]⟩, ⟨9, [⟨600, 5, 10⟩]⟩]).filter
      (fun d => decide ((4:ℚ) ≤ d) && decide (d < 4 + 3))).length ≤ 1 :=
  ⟨(crossing_cooldown_spec 3 500 10 4 5 0 [⟨600, 5, 10⟩] []).1 (by norm_num),
   (crossing_cooldown_spec 3 500 10 4 5 0 [⟨600, 5, 10⟩]
      [⟨5, [⟨600, 5, 10⟩]⟩, ⟨6, [⟨600, 5, 10⟩]⟩, ⟨9, [⟨600, 5, 10⟩]⟩]).2.2.2
      (by norm_num) 4⟩

end Parking
